import Mathlib

/-!
Verification of the merkle-root multisig metadata builder
(`rust/agents/relayer/src/msg/metadata/multisig/merkle_root_multisig.rs`).

The collaborators of the builder (local tree index, checkpoint syncer,
proof generator, validator registry) are modelled as an explicit environment
of oracle functions; `fetch_metadata` is the pure pipeline over their
per-invocation results, mirroring the Rust control flow: the
`unwrap_or_none_result!` macro becomes a match that returns `Except.ok none`
on `none`, and `.context(CTX)?` becomes `withContext CTX` followed by error
propagation.
-/

namespace HyperlaneMerkleRoot

/-- 256-bit hashes and addresses, abstracted as naturals. -/
abbrev H256 := Nat

/-- An `eyre`-style error: the chain of context labels added by `.context`
(most recent first) over the originating cause. -/
structure EyreError where
  context : List String
  cause : String
  deriving DecidableEq, Repr

/-- Embedding of `Result::context(c)`: on the error branch, push label `c`
onto the context chain; the success branch is unchanged. -/
def withContext {α : Type} (c : String) : Except EyreError α → Except EyreError α
  | .error e => .error ⟨c :: e.context, e.cause⟩
  | .ok a => .ok a

/-- A validator address paired with its weight (`ValidatorWithWeight`). -/
structure ValidatorWithWeight where
  validator : H256
  weight : Nat
  deriving DecidableEq, Repr

/-- Modelled from the spec: a `Checkpoint` is a (root, index) pair — the
attested merkle root and the highest leaf index it covers
(`hyperlane_core::Checkpoint` is not under src/). -/
structure Checkpoint where
  root : H256
  index : Nat
  deriving DecidableEq, Repr

/-- Modelled from the spec: a checkpoint paired with the message id of its
final leaf (`hyperlane_core::CheckpointWithMessageId` is not under src/). -/
structure CheckpointWithMessageId where
  checkpoint : Checkpoint
  message_id : H256
  deriving DecidableEq, Repr

/-- Modelled from the spec: a quorum checkpoint — a checkpoint plus the
signatures attesting to it; signers are identified by validator address
(`MultisigSignedCheckpoint` is not under src/). -/
structure MultisigSignedCheckpoint where
  checkpoint : CheckpointWithMessageId
  signatures : List H256
  deriving DecidableEq, Repr

/-- Modelled from the spec: a merkle proof is an ordered sequence of sibling
hashes (`hyperlane_core::accumulator::merkle::Proof` is not under src/). -/
structure Proof where
  path : List H256
  deriving DecidableEq, Repr

/-- Modelled from the spec: the output aggregate — quorum checkpoint, the
leaf index of the message, and an optional merkle proof (`MultisigMetadata` in
`base.rs` is not under src/). Field order mirrors `MultisigMetadata::new`. -/
structure MultisigMetadata where
  checkpoint : MultisigSignedCheckpoint
  leaf_index : Nat
  proof : Option Proof
  deriving DecidableEq, Repr

/-- Modelled from the spec: the ordered field tags a verifier contract
expects (`MetadataToken` in `base.rs` is not under src/; the six variants
used by the merkle-root scheme are listed). -/
inductive MetadataToken where
  | CheckpointMerkleTreeHook
  | MessageMerkleLeafIndex
  | MessageId
  | MerkleProof
  | CheckpointIndex
  | Signatures
  deriving DecidableEq, Repr

/-- Modelled from the spec: a message has a unique identifier, an origin
domain, a destination domain and a body (`HyperlaneMessage` is not under
src/; `fetch_metadata` consults only `message.id()`). -/
structure HyperlaneMessage where
  id : H256
  origin : Nat
  destination : Nat
  body : List Nat
  deriving DecidableEq, Repr

/-- The per-invocation results of the collaborators of the builder.
The field types mirror the Rust signatures at the call sites in
`fetch_metadata`: `highest_known_leaf_index` yields a plain `Option` (no
error channel), the other three are fallible. -/
structure MerkleRootEnv where
  highestKnownLeafIndex : Option Nat
  getMerkleLeafIdByMessageId : H256 → Except EyreError (Option Nat)
  fetchCheckpointInRange : List ValidatorWithWeight → Nat → Nat → Nat → Nat → Nat →
    Except EyreError (Option MultisigSignedCheckpoint)
  getProof : Nat → Checkpoint → Except EyreError Proof
  originDomain : Nat
  destinationDomain : Nat

/-- The fixed context label of the builder (`const CTX` in the source). -/
def CTX : String := "When fetching MerkleRootMultisig metadata"

/-- Source `MerkleRootMultisigMetadataBuilder::token_layout`. -/
def token_layout : List MetadataToken :=
  [ MetadataToken.CheckpointMerkleTreeHook,
    MetadataToken.MessageMerkleLeafIndex,
    MetadataToken.MessageId,
    MetadataToken.MerkleProof,
    MetadataToken.CheckpointIndex,
    MetadataToken.Signatures ]

/-- Source `MerkleRootMultisigMetadataBuilder::fetch_metadata` as a
step-for-step embedding of the Rust pipeline: `unwrap_or_none_result!`
short-circuits to `ok none` when an oracle reports absence, and
`.context(CTX)?` labels and propagates errors. -/
def fetch_metadata (env : MerkleRootEnv) (validators : List ValidatorWithWeight)
    (threshold_weight : Nat) (message : HyperlaneMessage) :
    Except EyreError (Option MultisigMetadata) :=
  match env.highestKnownLeafIndex with
  | none => .ok none
  | some highest_leaf_index =>
    match withContext CTX (env.getMerkleLeafIdByMessageId message.id) with
    | .error e => .error e
    | .ok none => .ok none
    | .ok (some leaf_index) =>
      match withContext CTX (env.fetchCheckpointInRange validators threshold_weight
          leaf_index highest_leaf_index env.originDomain env.destinationDomain) with
      | .error e => .error e
      | .ok none => .ok none
      | .ok (some quorum_checkpoint) =>
        match withContext CTX (env.getProof leaf_index
            quorum_checkpoint.checkpoint.checkpoint) with
        | .error e => .error e
        | .ok proof =>
          .ok (some ⟨quorum_checkpoint, leaf_index, some proof⟩)

/-- Cumulative weight of the validators whose address appears among the
signers of a checkpoint. -/
def signerWeight (validators : List ValidatorWithWeight) (signers : List H256) : Nat :=
  ((validators.filter (fun v => signers.contains v.validator)).map
    (fun v => v.weight)).sum

/-- Whether a stored checkpoint qualifies for the requested range and
threshold: its index lies in `[lo, hi]` and its signer weight meets the
threshold. -/
def qualifies (validators : List ValidatorWithWeight) (tw lo hi : Nat)
    (q : MultisigSignedCheckpoint) : Bool :=
  decide (lo ≤ q.checkpoint.checkpoint.index) &&
    decide (q.checkpoint.checkpoint.index ≤ hi) &&
    decide (tw ≤ signerWeight validators q.signatures)

/-- Among candidate checkpoints, pick the one with the smallest index. -/
def pickMinIndex : List MultisigSignedCheckpoint → Option MultisigSignedCheckpoint
  | [] => none
  | q :: qs =>
    match pickMinIndex qs with
    | none => some q
    | some r =>
      if q.checkpoint.checkpoint.index ≤ r.checkpoint.checkpoint.index then some q
      else some r

/-- Modelled from the spec: the Quorum Checkpoint Locator
(`MultisigCheckpointSyncer::fetch_checkpoint_in_range`, not under src/):
over a store of validator-published checkpoints, return the checkpoint with
the smallest index within the inclusive range `[lo, hi]` whose signer weight
meets the threshold, or absence if no such checkpoint exists; absence is a
soft outcome, not an error. The domain pair only scopes storage lookups. -/
def fetch_checkpoint_in_range (store : List MultisigSignedCheckpoint)
    (validators : List ValidatorWithWeight) (tw lo hi _originDomain _destinationDomain : Nat) :
    Except EyreError (Option MultisigSignedCheckpoint) :=
  .ok (pickMinIndex (store.filter (qualifies validators tw lo hi)))

/-- The quorum checkpoint locator finds nothing over an empty range
(`lo > hi`): no checkpoint index can satisfy `lo ≤ index ≤ hi`. -/
theorem fetch_checkpoint_in_range_empty_range (store : List MultisigSignedCheckpoint)
    (validators : List ValidatorWithWeight) (tw lo hi d1 d2 : Nat) (hlt : hi < lo) :
    fetch_checkpoint_in_range store validators tw lo hi d1 d2 = .ok none := by
  unfold fetch_checkpoint_in_range
  have hfil : store.filter (qualifies validators tw lo hi) = [] := by
    rw [List.filter_eq_nil_iff]
    intro q _
    unfold qualifies
    simp only [Bool.and_eq_true, decide_eq_true_eq, not_and]
    intro h1 h2
    omega
  rw [hfil]
  rfl

/-- The per-invocation result of the validator and threshold query against
the verifier contract, as consulted by the validator-requirement routine. -/
structure IsmEnv where
  validatorsAndThreshold : H256 → HyperlaneMessage → Except EyreError (List H256 × Nat)

/-- Modelled from the spec: `fetch_unit_validator_requirements` (in
`base.rs`, not under src/) assigns weight 1 to every validator reported by
the verifier contract and uses the reported threshold count of the contract
directly as the weight threshold. -/
def fetch_unit_validator_requirements (env : IsmEnv) (ism_address : H256)
    (message : HyperlaneMessage) : Except EyreError (List ValidatorWithWeight × Nat) :=
  match env.validatorsAndThreshold ism_address message with
  | .error e => .error e
  | .ok (vals, threshold) => .ok (vals.map (fun v => ⟨v, 1⟩), threshold)

/-- Source `MerkleRootMultisigMetadataBuilder::ism_validator_requirements`:
delegates to the unit-weight requirement fetch. -/
def ism_validator_requirements (env : IsmEnv) (ism_address : H256)
    (message : HyperlaneMessage) : Except EyreError (List ValidatorWithWeight × Nat) :=
  fetch_unit_validator_requirements env ism_address message

/-- If `withContext c` produced an error, its context chain starts with
label `c`. -/
theorem withContext_error_head {α : Type} {c : String} {x : Except EyreError α}
    {e : EyreError} (h : withContext c x = .error e) : e.context.head? = some c := by
  cases x with
  | error e0 =>
    simp only [withContext] at h
    injection h with h
    rw [← h]
    rfl
  | ok a => simp [withContext] at h

/-- C1: if the leaf-index lookup reports no recorded leaf index, the result
of `fetch_metadata` is empty success (`ok none`), never an error — whether
the pipeline stops at the highest-index step or at the leaf step. -/
theorem C1_absent_leaf_returns_ok_none (env : MerkleRootEnv)
    (validators : List ValidatorWithWeight) (tw : Nat) (message : HyperlaneMessage)
    (h : env.getMerkleLeafIdByMessageId message.id = .ok none) :
    fetch_metadata env validators tw message = .ok none := by
  unfold fetch_metadata
  cases hh : env.highestKnownLeafIndex with
  | none => rfl
  | some hi => simp [h, withContext]

/-- A concrete message used by the witnesses. -/
def msgA : HyperlaneMessage := ⟨5, 1, 2, [0, 1]⟩

/-- Environment in which the leaf-index lookup reports no recorded leaf. -/
def envAbsentLeaf : MerkleRootEnv :=
  { highestKnownLeafIndex := some 10
    getMerkleLeafIdByMessageId := fun _ => .ok none
    fetchCheckpointInRange := fun _ _ _ _ _ _ => .ok none
    getProof := fun _ _ => .error ⟨[], "tree data missing"⟩
    originDomain := 1
    destinationDomain := 2 }

/-- Witness for C1 at a concrete environment. -/
theorem C1_witness :
    fetch_metadata envAbsentLeaf [] 3 msgA = .ok none :=
  C1_absent_leaf_returns_ok_none envAbsentLeaf [] 3 msgA rfl

/-- C2: the checkpoint request is made over exactly the inclusive range
with the resolved leaf index as lower bound and the highest known leaf index
as upper bound, in that argument order, scoped by the origin and destination
domains; an empty locator result yields empty success, and over an empty
range (leaf index beyond the highest known index) the spec-modelled locator
reports absence, so `fetch_metadata` again returns empty success. -/
theorem C2_checkpoint_range_and_empty (env : MerkleRootEnv)
    (validators : List ValidatorWithWeight) (tw : Nat) (message : HyperlaneMessage)
    (hi lo : Nat)
    (h1 : env.highestKnownLeafIndex = some hi)
    (h2 : env.getMerkleLeafIdByMessageId message.id = .ok (some lo)) :
    (env.fetchCheckpointInRange validators tw lo hi env.originDomain
        env.destinationDomain = .ok none →
      fetch_metadata env validators tw message = .ok none) ∧
    (∀ store : List MultisigSignedCheckpoint, hi < lo →
      fetch_checkpoint_in_range store validators tw lo hi env.originDomain
          env.destinationDomain = .ok none ∧
      fetch_metadata { env with fetchCheckpointInRange := fetch_checkpoint_in_range store }
        validators tw message = .ok none) := by
  constructor
  · intro hcp
    unfold fetch_metadata
    rw [h1]
    simp [h2, hcp, withContext]
  · intro store hlt
    have hnone := fetch_checkpoint_in_range_empty_range store validators tw lo hi
      env.originDomain env.destinationDomain hlt
    refine ⟨hnone, ?_⟩
    unfold fetch_metadata
    simp only [h1, h2]
    simp [withContext, hnone, h1, h2]

/-- Environment in which the message leaf is ahead of the local sync
(highest known index 10, message leaf index 12). -/
def envAhead : MerkleRootEnv :=
  { highestKnownLeafIndex := some 10
    getMerkleLeafIdByMessageId := fun _ => .ok (some 12)
    fetchCheckpointInRange := fetch_checkpoint_in_range []
    getProof := fun _ _ => .error ⟨[], "tree data missing"⟩
    originDomain := 1
    destinationDomain := 2 }

/-- Witness for C2 at the spec scenario: highest known index 10, leaf 12. -/
theorem C2_witness :
    (10 : Nat) < 12 ∧
    fetch_metadata { envAhead with fetchCheckpointInRange := fetch_checkpoint_in_range [] }
      [] 3 msgA = .ok none :=
  ⟨by decide,
    ((C2_checkpoint_range_and_empty envAhead [] 3 msgA 10 12 rfl rfl).2 [] (by decide)).2⟩

/-- C3: when the merkle-proof computation fails, `fetch_metadata` returns an
error that keeps the originating cause and adds the fixed context label — it
is never converted into empty success. -/
theorem C3_proof_failure_is_hard_error (env : MerkleRootEnv)
    (validators : List ValidatorWithWeight) (tw : Nat) (message : HyperlaneMessage)
    (hi lo : Nat) (q : MultisigSignedCheckpoint) (e : EyreError)
    (h1 : env.highestKnownLeafIndex = some hi)
    (h2 : env.getMerkleLeafIdByMessageId message.id = .ok (some lo))
    (h3 : env.fetchCheckpointInRange validators tw lo hi env.originDomain
        env.destinationDomain = .ok (some q))
    (h4 : env.getProof lo q.checkpoint.checkpoint = .error e) :
    fetch_metadata env validators tw message = .error ⟨CTX :: e.context, e.cause⟩ := by
  unfold fetch_metadata
  rw [h1]
  simp [h2, h3, h4, withContext]

/-- A concrete quorum checkpoint used by the witnesses. -/
def cpA : MultisigSignedCheckpoint := ⟨⟨⟨99, 7⟩, 5⟩, [11]⟩

/-- Environment in which everything succeeds except the proof computation. -/
def envProofFail : MerkleRootEnv :=
  { highestKnownLeafIndex := some 10
    getMerkleLeafIdByMessageId := fun _ => .ok (some 4)
    fetchCheckpointInRange := fun _ _ _ _ _ _ => .ok (some cpA)
    getProof := fun _ _ => .error ⟨["inner"], "tree data missing"⟩
    originDomain := 1
    destinationDomain := 2 }

/-- Witness for C3 at a concrete environment. -/
theorem C3_witness :
    fetch_metadata envProofFail [] 3 msgA
      = .error ⟨[CTX, "inner"], "tree data missing"⟩ :=
  C3_proof_failure_is_hard_error envProofFail [] 3 msgA 10 4 cpA
    ⟨["inner"], "tree data missing"⟩ rfl rfl rfl rfl

/-- C4: `token_layout` always returns exactly the six tokens tree-hook
address, leaf index, message id, merkle proof, checkpoint index, signatures,
in that order. -/
theorem C4_token_layout_fixed :
    token_layout =
      [ MetadataToken.CheckpointMerkleTreeHook,
        MetadataToken.MessageMerkleLeafIndex,
        MetadataToken.MessageId,
        MetadataToken.MerkleProof,
        MetadataToken.CheckpointIndex,
        MetadataToken.Signatures ] := rfl

/-- C5: when the highest known leaf index is unknown, `fetch_metadata`
returns empty success; the statement quantifies over every possible
leaf-index oracle — including ones that would fail — showing that the
highest-index check is decided first, before the leaf of the message is
resolved. -/
theorem C5_unknown_highest_short_circuits (env : MerkleRootEnv)
    (validators : List ValidatorWithWeight) (tw : Nat) (message : HyperlaneMessage)
    (h : env.highestKnownLeafIndex = none) :
    fetch_metadata env validators tw message = .ok none := by
  unfold fetch_metadata
  rw [h]

/-- Environment with an unsynced tree: the highest index is unknown while
the leaf-index lookup would fail if it were ever consulted. -/
def envUnsynced : MerkleRootEnv :=
  { highestKnownLeafIndex := none
    getMerkleLeafIdByMessageId := fun _ => .error ⟨[], "lookup io failure"⟩
    fetchCheckpointInRange := fun _ _ _ _ _ _ => .error ⟨[], "network down"⟩
    getProof := fun _ _ => .error ⟨[], "tree data missing"⟩
    originDomain := 1
    destinationDomain := 2 }

/-- Witness for C5: even with every later oracle failing, an unknown highest
index yields empty success. -/
theorem C5_witness :
    fetch_metadata envUnsynced [] 3 msgA = .ok none :=
  C5_unknown_highest_short_circuits envUnsynced [] 3 msgA rfl

/-- C6: when all four steps succeed, the result is success carrying the
metadata whose checkpoint is the quorum checkpoint returned by the locator,
whose leaf index is the resolved leaf index, and whose proof field is
present. -/
theorem C6_success_assembles_metadata (env : MerkleRootEnv)
    (validators : List ValidatorWithWeight) (tw : Nat) (message : HyperlaneMessage)
    (hi lo : Nat) (q : MultisigSignedCheckpoint) (pf : Proof)
    (h1 : env.highestKnownLeafIndex = some hi)
    (h2 : env.getMerkleLeafIdByMessageId message.id = .ok (some lo))
    (h3 : env.fetchCheckpointInRange validators tw lo hi env.originDomain
        env.destinationDomain = .ok (some q))
    (h4 : env.getProof lo q.checkpoint.checkpoint = .ok pf) :
    fetch_metadata env validators tw message = .ok (some ⟨q, lo, some pf⟩) := by
  unfold fetch_metadata
  rw [h1]
  simp [h2, h3, h4, withContext]

/-- Environment in which all four pipeline steps succeed. -/
def envSuccess : MerkleRootEnv :=
  { highestKnownLeafIndex := some 10
    getMerkleLeafIdByMessageId := fun _ => .ok (some 4)
    fetchCheckpointInRange := fun _ _ _ _ _ _ => .ok (some cpA)
    getProof := fun _ _ => .ok ⟨[21, 22]⟩
    originDomain := 1
    destinationDomain := 2 }

/-- Witness for C6 at a concrete environment. -/
theorem C6_witness :
    fetch_metadata envSuccess [] 3 msgA
      = .ok (some ⟨cpA, 4, some ⟨[21, 22]⟩⟩) :=
  C6_success_assembles_metadata envSuccess [] 3 msgA 10 4 cpA ⟨[21, 22]⟩
    rfl rfl rfl rfl

/-- Environment in which the leaf-index lookup itself fails with an input
and output error, producing a hard error from the pipeline. -/
def envLookupFail : MerkleRootEnv :=
  { highestKnownLeafIndex := some 10
    getMerkleLeafIdByMessageId := fun _ => .error ⟨[], "io failure"⟩
    fetchCheckpointInRange := fun _ _ _ _ _ _ => .ok none
    getProof := fun _ _ => .error ⟨[], "tree data missing"⟩
    originDomain := 1
    destinationDomain := 2 }

/-- C7 counterexample: a hard error produced by `fetch_metadata` carries the
context label of the source constant, the string
"When fetching MerkleRootMultisig metadata", which is not the string
"fetching merkle-root multisig metadata" named by the claim. -/
theorem C7_counterexample :
    fetch_metadata envLookupFail [] 3 msgA
      = .error ⟨["When fetching MerkleRootMultisig metadata"], "io failure"⟩ ∧
    CTX ≠ "fetching merkle-root multisig metadata" :=
  ⟨rfl, by decide⟩

/-- C7 (amended): every hard error returned by `fetch_metadata` — from the
leaf-index lookup, the checkpoint fetch or the proof computation — carries
one fixed contextual label at the head of its context chain, and that label
is the string "When fetching MerkleRootMultisig metadata". -/
theorem C7_amended_error_label (env : MerkleRootEnv)
    (validators : List ValidatorWithWeight) (tw : Nat) (message : HyperlaneMessage)
    (e : EyreError)
    (h : fetch_metadata env validators tw message = .error e) :
    e.context.head? = some CTX ∧ CTX = "When fetching MerkleRootMultisig metadata" := by
  refine ⟨?_, rfl⟩
  unfold fetch_metadata at h
  cases hh : env.highestKnownLeafIndex with
  | none => rw [hh] at h; simp at h
  | some hi =>
    rw [hh] at h
    cases hl : withContext CTX (env.getMerkleLeafIdByMessageId message.id) with
    | error e1 =>
      rw [hl] at h
      simp at h
      subst h
      exact withContext_error_head hl
    | ok lOpt =>
      rw [hl] at h
      cases lOpt with
      | none => simp at h
      | some lo =>
        dsimp only at h
        cases hc : withContext CTX (env.fetchCheckpointInRange validators tw lo hi
            env.originDomain env.destinationDomain) with
        | error e2 =>
          rw [hc] at h
          simp at h
          subst h
          exact withContext_error_head hc
        | ok cOpt =>
          rw [hc] at h
          cases cOpt with
          | none => simp at h
          | some q =>
            dsimp only at h
            cases hp : withContext CTX (env.getProof lo q.checkpoint.checkpoint) with
            | error e3 =>
              rw [hp] at h
              simp at h
              subst h
              exact withContext_error_head hp
            | ok pf =>
              rw [hp] at h
              simp at h

/-- Environment used by the C7 witness: the checkpoint fetch fails. -/
def envSyncerFail : MerkleRootEnv :=
  { highestKnownLeafIndex := some 10
    getMerkleLeafIdByMessageId := fun _ => .ok (some 4)
    fetchCheckpointInRange := fun _ _ _ _ _ _ => .error ⟨[], "network down"⟩
    getProof := fun _ _ => .error ⟨[], "tree data missing"⟩
    originDomain := 1
    destinationDomain := 2 }

/-- Witness for the amended C7 at a concrete failing checkpoint fetch. -/
theorem C7_witness :
    EyreError.context ⟨[CTX, "x"], "network down"⟩ ≠ [] ∧
    (EyreError.context ⟨[CTX], "network down"⟩).head? = some CTX :=
  ⟨by simp,
    (C7_amended_error_label envSyncerFail [] 3 msgA ⟨[CTX], "network down"⟩ rfl).1⟩

/-- The verifier contract reporting validator set 7, 8, 9 with threshold
count 2, as in the spec scenario. -/
def ismEnvXYZ : IsmEnv := ⟨fun _ _ => .ok ([7, 8, 9], 2)⟩

/-- C8: `ism_validator_requirements` assigns weight 1 to every validator the
verifier contract reports and passes the reported threshold count through
unchanged as the weight threshold. -/
theorem C8_unit_weights (env : IsmEnv) (ism : H256) (message : HyperlaneMessage)
    (vals : List H256) (t : Nat)
    (h : env.validatorsAndThreshold ism message = .ok (vals, t)) :
    ism_validator_requirements env ism message
      = .ok (vals.map (fun v => ⟨v, 1⟩), t) := by
  unfold ism_validator_requirements fetch_unit_validator_requirements
  rw [h]

/-- Witness for C8 at the spec scenario: a three-validator set with
threshold count 2 resolves to unit weights and threshold weight 2. -/
theorem C8_witness :
    ism_validator_requirements ismEnvXYZ 0 msgA
      = .ok ([⟨7, 1⟩, ⟨8, 1⟩, ⟨9, 1⟩], 2) :=
  C8_unit_weights ismEnvXYZ 0 msgA [7, 8, 9] 2 rfl

/-- C9: when the leaf-index lookup itself fails, `fetch_metadata` returns an
error that keeps the originating cause and adds the fixed context label — a
lookup failure is never downgraded to empty success. -/
theorem C9_lookup_failure_is_hard_error (env : MerkleRootEnv)
    (validators : List ValidatorWithWeight) (tw : Nat) (message : HyperlaneMessage)
    (hi : Nat) (e : EyreError)
    (h1 : env.highestKnownLeafIndex = some hi)
    (h2 : env.getMerkleLeafIdByMessageId message.id = .error e) :
    fetch_metadata env validators tw message = .error ⟨CTX :: e.context, e.cause⟩ := by
  unfold fetch_metadata
  rw [h1]
  simp [h2, withContext]

/-- Environment used by the C9 witness: the leaf-index lookup fails. -/
def envLookupFail9 : MerkleRootEnv :=
  { highestKnownLeafIndex := some 10
    getMerkleLeafIdByMessageId := fun _ => .error ⟨["db"], "io failure"⟩
    fetchCheckpointInRange := fun _ _ _ _ _ _ => .ok none
    getProof := fun _ _ => .error ⟨[], "tree data missing"⟩
    originDomain := 1
    destinationDomain := 2 }

/-- Witness for C9 at a concrete failing lookup. -/
theorem C9_witness :
    fetch_metadata envLookupFail9 [] 3 msgA
      = .error ⟨[CTX, "db"], "io failure"⟩ :=
  C9_lookup_failure_is_hard_error envLookupFail9 [] 3 msgA 10
    ⟨["db"], "io failure"⟩ rfl rfl

/-- C10: the highest-known-leaf-index step can never cause an error: when
the index is unknown the result is empty success, and whenever
`fetch_metadata` returns an error the highest index was known (the error
branch is unreachable from this step). -/
theorem C10_highest_step_never_errors (env : MerkleRootEnv)
    (validators : List ValidatorWithWeight) (tw : Nat) (message : HyperlaneMessage) :
    (env.highestKnownLeafIndex = none →
      fetch_metadata env validators tw message = .ok none) ∧
    (∀ e : EyreError, fetch_metadata env validators tw message = .error e →
      env.highestKnownLeafIndex.isSome = true) := by
  constructor
  · intro h
    unfold fetch_metadata
    rw [h]
  · intro e herr
    cases hh : env.highestKnownLeafIndex with
    | none =>
      unfold fetch_metadata at herr
      rw [hh] at herr
      simp at herr
    | some hi => rfl

/-- Environment used by the C10 witness with an unknown highest index. -/
def envNoHighest : MerkleRootEnv :=
  { highestKnownLeafIndex := none
    getMerkleLeafIdByMessageId := fun _ => .error ⟨[], "io failure"⟩
    fetchCheckpointInRange := fun _ _ _ _ _ _ => .error ⟨[], "network down"⟩
    getProof := fun _ _ => .error ⟨[], "tree data missing"⟩
    originDomain := 1
    destinationDomain := 2 }

/-- Environment used by the C10 witness in which the pipeline errors. -/
def envErring10 : MerkleRootEnv :=
  { highestKnownLeafIndex := some 10
    getMerkleLeafIdByMessageId := fun _ => .error ⟨[], "io failure"⟩
    fetchCheckpointInRange := fun _ _ _ _ _ _ => .ok none
    getProof := fun _ _ => .error ⟨[], "tree data missing"⟩
    originDomain := 1
    destinationDomain := 2 }

/-- Witness for C10: an unknown highest index yields empty success, and a
concrete erroring run has a known highest index. -/
theorem C10_witness :
    fetch_metadata envNoHighest [] 3 msgA = .ok none ∧
    envErring10.highestKnownLeafIndex.isSome = true :=
  ⟨(C10_highest_step_never_errors envNoHighest [] 3 msgA).1 rfl,
    (C10_highest_step_never_errors envErring10 [] 3 msgA).2
      ⟨[CTX], "io failure"⟩ rfl⟩

end HyperlaneMerkleRoot
